import Mathlib

/-
  Verification development for the telegram-stripe-escrow-bot repository.

  Shallow embedding of the escrow lifecycle engine:
    - database/models.py        -> User, Deal, Milestone, Referral records
    - bot/handlers.py           -> button_handler actions, admin commands,
                                   _check_and_award_referral
    - webhooks/server.py        -> the Stripe webhook (payment reconciliation)
    - scheduler.py              -> schedule_job / remove_job / run_scheduled_job
    - stripe_utils.py           -> gateway calls, recorded in a call log

  Conventions:
    - SQLAlchemy rows become Lean structures; the database plus the job queue,
      the gateway call log and the emitted notifications form one EscrowState.
    - Amounts are rationals (Python floats hold decimal dollar amounts; the
      arithmetic used is *, -, / by constants).  Python int() truncation is
      modelled by pyInt.
    - Notifications are recorded as (recipient user id, short message tag);
      the repository's long message texts are abbreviated to stable tags.
    - A gateway call that can fail is modelled by a gwOk flag consulted at the
      call site: gwOk = false means the Stripe call raises, which in the
      source aborts the handler before any session.commit().
    - stripe.PaymentIntent.retrieve in the webhook is a read-only lookup and
      is not recorded in the gateway call log.
-/

namespace EscrowBot

/-- Error taxonomy of the spec (section 7); guard failures in the handlers. -/
inductive BotError where
  | notFound
  | unauthorized
  | invalidState
  | validationError
  | gatewayError
  deriving Repr, DecidableEq

/-- users table (database/models.py, class User). -/
structure User where
  id : Nat
  telegramId : Nat
  stripeAccountId : Option String
  isVerified : Bool
  freeTradesRemaining : Nat
  deriving Repr, DecidableEq

/-- deals table (database/models.py, class Deal). -/
structure Deal where
  id : Nat
  creatorId : Nat
  counterpartyId : Nat
  title : String
  currency : String
  totalAmount : ℚ
  status : String
  dealType : String
  tradeStatus : Option String
  paymentIntentId : Option String
  autoJobId : Option String
  deriving Repr, DecidableEq

/-- milestones table (database/models.py, class Milestone). -/
structure Milestone where
  id : Nat
  dealId : Nat
  name : String
  amount : ℚ
  paymentIntentId : Option String
  isReleased : Bool
  deriving Repr, DecidableEq

/-- referrals table (database/models.py, class Referral). -/
structure Referral where
  id : Nat
  referrerId : Nat
  referredUserId : Nat
  rewardClaimed : Bool
  deriving Repr, DecidableEq

/-- One scheduled job in the telegram job queue (scheduler.schedule_job). -/
structure Job where
  id : String
  dealId : Nat
  jobType : String
  runTime : Nat
  deriving Repr, DecidableEq

/-- Effectful payment-gateway calls (stripe_utils.StripeHelper). -/
inductive GatewayCall where
  | collect (amount : ℚ) (currency : String) (feeCents : ℤ)
  | transfer (amount : ℚ) (currency : String) (destination : Option String) (tag : String)
  | refund (paymentIntentId : Option String) (amountCents : Option ℤ)
  deriving Repr, DecidableEq

/-- The whole observable state: database tables, job queue, gateway call log
and emitted notifications. -/
structure EscrowState where
  users : List User
  deals : List Deal
  milestones : List Milestone
  referrals : List Referral
  jobs : List Job
  gatewayLog : List GatewayCall
  notifications : List (Nat × String)
  deriving Repr, DecidableEq

/-- A checkout.session.completed event as seen by the webhook: type, the
payment intent id, the metadata keys the handler reads, and the paid amount
and currency it does not read. -/
structure StripeEvent where
  type : String
  paymentIntentId : String
  milestoneId : Option Nat
  dealId : Option Nat
  amountTotal : ℚ
  currency : String
  deriving Repr, DecidableEq

/-- Map f over exactly the elements satisfying p (a row UPDATE). -/
def updateBy (l : List α) (p : α → Bool) (f : α → α) : List α :=
  l.map fun a => if p a then f a else a

def findUser (l : List User) (i : Nat) : Option User := l.find? fun u => u.id == i

def updateUserBy (l : List User) (i : Nat) (f : User → User) : List User :=
  updateBy l (fun u => u.id == i) f

def findDeal (l : List Deal) (i : Nat) : Option Deal := l.find? fun d => d.id == i

def updateDealBy (l : List Deal) (i : Nat) (f : Deal → Deal) : List Deal :=
  updateBy l (fun d => d.id == i) f

def findMilestone (l : List Milestone) (i : Nat) : Option Milestone :=
  l.find? fun m => m.id == i

def updateMilestoneBy (l : List Milestone) (i : Nat) (f : Milestone → Milestone) :
    List Milestone :=
  updateBy l (fun m => m.id == i) f

/-- user.referral_received: the unique referral whose referred_user_id is the
given user (database/models.py relationship). -/
def findReferralFor (l : List Referral) (uid : Nat) : Option Referral :=
  l.find? fun r => r.referredUserId == uid

def updateReferralFor (l : List Referral) (uid : Nat) (f : Referral → Referral) :
    List Referral :=
  updateBy l (fun r => r.referredUserId == uid) f

/-- scheduler.remove_job: a falsy job id (None or empty) is ignored, otherwise
every job with that name is removed from the queue. -/
def removeJob (jobs : List Job) (jobId : Option String) : List Job :=
  match jobId with
  | none => jobs
  | some jid => if jid = "" then jobs else jobs.filter fun j => j.id != jid

/-- Python int() truncates toward zero. -/
def pyInt (q : ℚ) : ℤ := if q < 0 then Rat.ceil q else Rat.floor q

/-- Whether a deal involves the given user as creator or counterparty
(the filter used by the completed-deal count queries in bot/handlers.py). -/
def dealInvolves (d : Deal) (uid : Nat) : Bool :=
  d.creatorId == uid || d.counterpartyId == uid

/-- session.query(Deal).filter(involves user, status completed).count(),
as used in pay_trade and _check_and_award_referral. -/
def countCompletedDeals (deals : List Deal) (uid : Nat) : Nat :=
  (deals.filter fun d => dealInvolves d uid && d.status == "completed").length

/-- The fee/credit computation of pay_trade, bot/handlers.py lines 405-420:
first escrow free, else consume a free-trade credit, else a percentage fee on
the gross amount in cents.  Returns (application_fee_cents, new credits). -/
def computeTradeFee (completedDealsCount freeTradesRemaining : Nat)
    (platformFeePercent totalAmount : ℚ) : ℤ × Nat :=
  if completedDealsCount = 0 then
    (0, freeTradesRemaining)
  else if 0 < freeTradesRemaining then
    (0, freeTradesRemaining - 1)
  else if 0 < platformFeePercent then
    (pyInt (totalAmount * (platformFeePercent / 100) * 100), freeTradesRemaining)
  else
    (0, freeTradesRemaining)

/-- bot/handlers.py _check_and_award_referral (lines 89-116): when the given
user was referred, the reward is unclaimed, and the user has at least one
completed deal, credit the referrer with one free trade and mark the referral
claimed. -/
def checkAndAwardReferral (userId : Nat) (s : EscrowState) : EscrowState :=
  match findUser s.users userId with
  | none => s
  | some _ =>
    match findReferralFor s.referrals userId with
    | none => s
    | some r =>
      if r.rewardClaimed then s
      else if 1 ≤ countCompletedDeals s.deals userId then
        match findUser s.users r.referrerId with
        | none => s
        | some _ =>
          { s with
            users := updateUserBy s.users r.referrerId
              (fun u => { u with freeTradesRemaining := u.freeTradesRemaining + 1 }),
            referrals := updateReferralFor s.referrals userId
              (fun r' => { r' with rewardClaimed := true }),
            notifications := s.notifications ++ [(r.referrerId, "referral_reward")] }
      else s

/-- button_handler action send_offer (bot/handlers.py lines 377-397): only the
seller may send; schedules the 24h expire_offer job and invites the buyer.
No status guard and no cancellation of a previous job appears in the source. -/
def sendOffer (now actorTg dealId : Nat) (s : EscrowState) :
    EscrowState × Except BotError Unit :=
  match findDeal s.deals dealId with
  | none => (s, .error .notFound)
  | some d =>
    match findUser s.users d.creatorId with
    | none => (s, .error .notFound)
    | some creator =>
      if actorTg ≠ creator.telegramId then (s, .error .unauthorized)
      else
        let jobId := "expire_offer_" ++ toString dealId
        ({ s with
            deals := updateDealBy s.deals dealId fun d' => { d' with autoJobId := some jobId },
            jobs := s.jobs ++ [{ id := jobId, dealId := dealId, jobType := "expire_offer",
                                 runTime := now + 24 }],
            notifications := s.notifications ++ [(d.counterpartyId, "trade_invite")] },
         .ok ())

/-- button_handler action pay_trade (bot/handlers.py lines 400-438): only the
buyer may pay; computes the fee/credit, creates a checkout session, and
schedules the 7-day check_unshipped job.  The source sets deal.auto_job_id to
the new job id and schedules it without removing the expire_offer job, and
checks no deal status. -/
def payTrade (platformFeePercent : ℚ) (now actorTg dealId : Nat) (s : EscrowState) :
    EscrowState × Except BotError Unit :=
  match findDeal s.deals dealId with
  | none => (s, .error .notFound)
  | some d =>
    match findUser s.users d.counterpartyId with
    | none => (s, .error .notFound)
    | some buyer =>
      if actorTg ≠ buyer.telegramId then (s, .error .unauthorized)
      else
        let completed := countCompletedDeals s.deals buyer.id
        let fc := computeTradeFee completed buyer.freeTradesRemaining
                    platformFeePercent d.totalAmount
        let jobId := "check_unshipped_" ++ toString dealId
        ({ s with
            users := updateUserBy s.users buyer.id
              (fun u => { u with freeTradesRemaining := fc.2 }),
            deals := updateDealBy s.deals dealId fun d' => { d' with autoJobId := some jobId },
            jobs := s.jobs ++ [{ id := jobId, dealId := dealId,
                                 jobType := "check_unshipped_trades", runTime := now + 168 }],
            gatewayLog := s.gatewayLog ++ [.collect d.totalAmount d.currency fc.1],
            notifications := s.notifications ++ [(d.counterpartyId, "checkout_link")] },
         .ok ())

/-- button_handler action mark_shipped (bot/handlers.py lines 441-460): only
the seller may mark shipped; the source checks neither deal.status nor
deal.trade_status.  Sets trade_status shipped, removes the current job and
schedules the 7-day auto_release job. -/
def markShipped (now actorTg dealId : Nat) (s : EscrowState) :
    EscrowState × Except BotError Unit :=
  match findDeal s.deals dealId with
  | none => (s, .error .notFound)
  | some d =>
    match findUser s.users d.creatorId with
    | none => (s, .error .notFound)
    | some creator =>
      if actorTg ≠ creator.telegramId then (s, .error .unauthorized)
      else
        let jobId := "auto_release_" ++ toString dealId
        ({ s with
            deals := updateDealBy s.deals dealId fun d' =>
              { d' with tradeStatus := some "shipped", autoJobId := some jobId },
            jobs := removeJob s.jobs d.autoJobId ++
              [{ id := jobId, dealId := dealId, jobType := "check_unconfirmed_deliveries",
                 runTime := now + 168 }],
            notifications := s.notifications ++ [(d.counterpartyId, "shipped")] },
         .ok ())

/-- button_handler action confirm_delivery (bot/handlers.py lines 463-480):
only the buyer may confirm; removes the current job, transfers the total to
the seller, completes the deal, prompts for ratings and runs the referral
check for both parties.  No status or phase guard appears in the source. -/
def confirmDelivery (gwOk : Bool) (actorTg dealId : Nat) (s : EscrowState) :
    EscrowState × Except BotError Unit :=
  match findDeal s.deals dealId with
  | none => (s, .error .notFound)
  | some d =>
    match findUser s.users d.creatorId, findUser s.users d.counterpartyId with
    | some creator, some buyer =>
      if actorTg ≠ buyer.telegramId then (s, .error .unauthorized)
      else
        let jobs' := removeJob s.jobs d.autoJobId
        if gwOk = false then ({ s with jobs := jobs' }, .error .gatewayError)
        else
          let s1 : EscrowState :=
            { s with
              jobs := jobs',
              gatewayLog := s.gatewayLog ++
                [.transfer d.totalAmount d.currency creator.stripeAccountId
                   ("deal-" ++ toString dealId)],
              deals := updateDealBy s.deals dealId fun d' =>
                { d' with tradeStatus := some "completed", status := "completed" },
              notifications := s.notifications ++
                [(d.creatorId, "trade_complete"),
                 (d.counterpartyId, "rate_prompt"), (d.creatorId, "rate_prompt")] }
          (checkAndAwardReferral d.counterpartyId (checkAndAwardReferral d.creatorId s1),
           .ok ())
    | _, _ => (s, .error .notFound)

/-- button_handler action decline_trade (bot/handlers.py lines 483-496). -/
def declineTrade (actorTg dealId : Nat) (s : EscrowState) :
    EscrowState × Except BotError Unit :=
  match findDeal s.deals dealId with
  | none => (s, .error .notFound)
  | some d =>
    match findUser s.users d.counterpartyId with
    | none => (s, .error .notFound)
    | some buyer =>
      if actorTg ≠ buyer.telegramId then (s, .error .unauthorized)
      else
        ({ s with
            jobs := removeJob s.jobs d.autoJobId,
            deals := updateDealBy s.deals dealId fun d' => { d' with status := "cancelled" },
            notifications := s.notifications ++ [(d.creatorId, "declined")] },
         .ok ())

/-- button_handler action cancel_deal (bot/handlers.py lines 499-508). -/
def cancelDeal (actorTg dealId : Nat) (s : EscrowState) :
    EscrowState × Except BotError Unit :=
  match findDeal s.deals dealId with
  | none => (s, .error .notFound)
  | some d =>
    match findUser s.users d.creatorId with
    | none => (s, .error .notFound)
    | some creator =>
      if actorTg ≠ creator.telegramId then (s, .error .unauthorized)
      else
        ({ s with
            jobs := removeJob s.jobs d.autoJobId,
            deals := updateDealBy s.deals dealId fun d' => { d' with status := "cancelled" } },
         .ok ())

/-- button_handler action deposit_milestone (bot/handlers.py lines 511-538):
rejected while the project is disputed; only the client may deposit; creates
a checkout session for the milestone amount (no state change until the
webhook confirms payment). -/
def depositMilestone (actorTg milestoneId : Nat) (s : EscrowState) :
    EscrowState × Except BotError Unit :=
  match findMilestone s.milestones milestoneId with
  | none => (s, .error .notFound)
  | some m =>
    match findDeal s.deals m.dealId with
    | none => (s, .error .notFound)
    | some d =>
      if d.status = "disputed" then (s, .error .invalidState)
      else
        match findUser s.users d.creatorId with
        | none => (s, .error .notFound)
        | some creator =>
          if actorTg ≠ creator.telegramId then (s, .error .unauthorized)
          else
            ({ s with
                gatewayLog := s.gatewayLog ++ [.collect m.amount d.currency 0],
                notifications := s.notifications ++ [(d.creatorId, "checkout_link")] },
             .ok ())

/-- button_handler action release_milestone (bot/handlers.py lines 539-562):
rejected while the project is disputed; only the client may release; requires
the contractor's connected account; transfers the milestone amount, marks the
milestone released, completes the deal when no unreleased milestone remains,
and on completion runs the referral check for both parties. -/
def releaseMilestone (gwOk : Bool) (actorTg milestoneId : Nat) (s : EscrowState) :
    EscrowState × Except BotError Unit :=
  match findMilestone s.milestones milestoneId with
  | none => (s, .error .notFound)
  | some m =>
    match findDeal s.deals m.dealId with
    | none => (s, .error .notFound)
    | some d =>
      if d.status = "disputed" then (s, .error .invalidState)
      else
        match findUser s.users d.creatorId, findUser s.users d.counterpartyId with
        | some creator, some contractor =>
          if actorTg ≠ creator.telegramId then (s, .error .unauthorized)
          else
            match contractor.stripeAccountId with
            | none => (s, .error .validationError)
            | some acct =>
              if gwOk = false then (s, .error .gatewayError)
              else
                let ms' := updateMilestoneBy s.milestones milestoneId
                  fun m' => { m' with isReleased := true }
                let allReleased :=
                  (ms'.filter fun m' => m'.dealId == d.id && m'.isReleased == false).length = 0
                let dealAfter := if allReleased then { d with status := "completed" } else d
                let s1 : EscrowState :=
                  { s with
                    milestones := ms',
                    deals := if allReleased then
                        updateDealBy s.deals d.id fun d' => { d' with status := "completed" }
                      else s.deals,
                    gatewayLog := s.gatewayLog ++
                      [.transfer m.amount d.currency (some acct) ("deal-" ++ toString d.id)],
                    notifications := s.notifications ++ [(d.creatorId, "released")] }
                if dealAfter.status = "completed" then
                  (checkAndAwardReferral d.counterpartyId
                     (checkAndAwardReferral d.creatorId s1), .ok ())
                else (s1, .ok ())
        | _, _ => (s, .error .notFound)

/-- admin_split_funds (bot/handlers.py lines 738-784): requires a payment
reference and 0 <= seller_amount <= total; transfers the seller share,
refunds the remainder to the buyer, completes the deal.  A gateway error is
caught and reported; nothing is committed. -/
def adminSplit (gwOk : Bool) (dealId : Nat) (sellerAmount : ℚ) (s : EscrowState) :
    EscrowState × Except BotError Unit :=
  match findDeal s.deals dealId with
  | none => (s, .error .notFound)
  | some d =>
    match d.paymentIntentId with
    | none => (s, .error .notFound)
    | some pid =>
      if sellerAmount < 0 ∨ d.totalAmount < sellerAmount then (s, .error .validationError)
      else
        match findUser s.users d.creatorId with
        | none => (s, .error .notFound)
        | some creator =>
          let buyerRefund := d.totalAmount - sellerAmount
          if gwOk = false ∧ (0 < sellerAmount ∨ 0 < buyerRefund) then
            (s, .error .gatewayError)
          else
            let log1 := if 0 < sellerAmount then
                [GatewayCall.transfer sellerAmount d.currency creator.stripeAccountId
                  ("deal-" ++ toString dealId)]
              else []
            let log2 := if 0 < buyerRefund then
                [GatewayCall.refund (some pid) (some (pyInt (buyerRefund * 100)))]
              else []
            ({ s with
                deals := updateDealBy s.deals dealId fun d' => { d' with status := "completed" },
                gatewayLog := s.gatewayLog ++ log1 ++ log2,
                notifications := s.notifications ++
                  [(d.creatorId, "split_resolved"), (d.counterpartyId, "split_resolved")] },
             .ok ())

/-- The deal branch of admin_refund (bot/handlers.py lines 816-834): full
refund of a funded deal, status cancelled and trade phase refunded. -/
def adminRefundDealBranch (gwOk : Bool) (entityId : Nat) (s : EscrowState) :
    EscrowState × Except BotError Unit :=
  match findDeal s.deals entityId with
  | none => (s, .error .notFound)
  | some d =>
    match d.paymentIntentId with
    | none => (s, .error .notFound)
    | some pid =>
      if gwOk = false then (s, .error .gatewayError)
      else
        ({ s with
            gatewayLog := s.gatewayLog ++ [.refund (some pid) none],
            deals := updateDealBy s.deals entityId fun d' =>
              { d' with status := "cancelled", tradeStatus := some "refunded" },
            notifications := s.notifications ++
              [(d.creatorId, "deal_refunded"), (d.counterpartyId, "deal_refunded")] },
         .ok ())

/-- admin_refund (bot/handlers.py lines 787-836): looks the entity id up as a
milestone first; a funded milestone is refunded in full and marked released
as a terminal marker while its deal is cancelled; otherwise the id is treated
as a deal id. -/
def adminRefund (gwOk : Bool) (entityId : Nat) (s : EscrowState) :
    EscrowState × Except BotError Unit :=
  match findMilestone s.milestones entityId with
  | none => adminRefundDealBranch gwOk entityId s
  | some m =>
    match m.paymentIntentId with
    | none => adminRefundDealBranch gwOk entityId s
    | some pid =>
      if gwOk = false then (s, .error .gatewayError)
      else
        match findDeal s.deals m.dealId with
        | none =>
          ({ s with gatewayLog := s.gatewayLog ++ [.refund (some pid) none] },
           .error .notFound)
        | some d =>
          ({ s with
              gatewayLog := s.gatewayLog ++ [.refund (some pid) none],
              milestones := updateMilestoneBy s.milestones entityId fun m' =>
                { m' with isReleased := true },
              deals := updateDealBy s.deals m.dealId fun d' => { d' with status := "cancelled" },
              notifications := s.notifications ++
                [(d.creatorId, "milestone_refunded"), (d.counterpartyId, "milestone_refunded")] },
           .ok ())

/-- admin_resolve (bot/handlers.py lines 839-880): requires status disputed;
reopens the deal as pending. -/
def adminResolve (dealId : Nat) (s : EscrowState) :
    EscrowState × Except BotError Unit :=
  match findDeal s.deals dealId with
  | none => (s, .error .notFound)
  | some d =>
    if d.status ≠ "disputed" then (s, .error .invalidState)
    else
      ({ s with
          deals := updateDealBy s.deals dealId fun d' => { d' with status := "pending" },
          notifications := s.notifications ++
            [(d.creatorId, "dispute_resolved"), (d.counterpartyId, "dispute_resolved")] },
       .ok ())

/-- scheduler.run_scheduled_job (scheduler.py lines 25-74): the deadline
callback.  Each branch is guarded by the current deal state; a gateway error
is caught and logged, nothing is committed.  The auto-release branch prompts
for ratings but runs no referral check. -/
def runScheduledJob (gwOk : Bool) (dealId : Nat) (jobType : String) (s : EscrowState) :
    EscrowState × Except BotError Unit :=
  match findDeal s.deals dealId with
  | none => (s, .ok ())
  | some d =>
    if jobType = "expire_offer" ∧ d.status = "pending" then
      ({ s with
          deals := updateDealBy s.deals dealId fun d' => { d' with status := "cancelled" },
          notifications := s.notifications ++ [(d.creatorId, "offer_expired")] },
       .ok ())
    else if jobType = "check_unshipped_trades" ∧ d.tradeStatus = some "funded" then
      if gwOk = false then (s, .error .gatewayError)
      else
        ({ s with
            gatewayLog := s.gatewayLog ++ [.refund d.paymentIntentId none],
            deals := updateDealBy s.deals dealId fun d' =>
              { d' with status := "cancelled", tradeStatus := some "refunded" },
            notifications := s.notifications ++
              [(d.creatorId, "auto_refunded"), (d.counterpartyId, "auto_refunded")] },
         .ok ())
    else if jobType = "check_unconfirmed_deliveries" ∧ d.tradeStatus = some "shipped" then
      match findUser s.users d.creatorId with
      | none => (s, .error .notFound)
      | some creator =>
        if gwOk = false then (s, .error .gatewayError)
        else
          ({ s with
              gatewayLog := s.gatewayLog ++
                [.transfer d.totalAmount d.currency creator.stripeAccountId
                   ("deal-" ++ toString dealId)],
              deals := updateDealBy s.deals dealId fun d' =>
                { d' with status := "completed", tradeStatus := some "completed" },
              notifications := s.notifications ++
                [(d.creatorId, "auto_released"), (d.counterpartyId, "auto_released"),
                 (d.counterpartyId, "rate_prompt"), (d.creatorId, "rate_prompt")] },
           .ok ())
    else (s, .ok ())

/-- The Stripe webhook for checkout.session.completed (webhooks/server.py
lines 60-91): milestone metadata takes precedence; an unfunded milestone gets
its payment reference and both parties are notified; a pending deal becomes
funded with its payment reference and both parties are notified; anything
else is acknowledged without effect.  The handler reads only the event type,
the payment intent id and the metadata, never the paid amount or currency. -/
def webhook (e : StripeEvent) (s : EscrowState) : EscrowState :=
  if e.type = "checkout.session.completed" then
    match e.milestoneId with
    | some mid =>
      match findMilestone s.milestones mid with
      | none => s
      | some m =>
        if m.paymentIntentId = none then
          match findDeal s.deals m.dealId with
          | none => s
          | some d =>
            { s with
              milestones := updateMilestoneBy s.milestones mid fun m' =>
                { m' with paymentIntentId := some e.paymentIntentId },
              notifications := s.notifications ++
                [(d.creatorId, "milestone_funded"), (d.counterpartyId, "milestone_funded")] }
        else s
    | none =>
      match e.dealId with
      | some did =>
        match findDeal s.deals did with
        | none => s
        | some d =>
          if d.status = "pending" then
            { s with
              deals := updateDealBy s.deals did fun d' =>
                { d' with status := "funded", tradeStatus := some "funded",
                          paymentIntentId := some e.paymentIntentId },
              notifications := s.notifications ++
                [(d.creatorId, "trade_funded"), (d.counterpartyId, "trade_funded")] }
          else s
      | none => s
  else s

/-- The operations of the engine that perform a gateway transfer or refund
(spec section 7): delivery confirmation, milestone release, the admin split
and refund commands, and the deadline callback. -/
inductive GwOp where
  | delivery (actorTg dealId : Nat)
  | release (actorTg milestoneId : Nat)
  | split (dealId : Nat) (sellerAmount : ℚ)
  | refundEntity (entityId : Nat)
  | sched (dealId : Nat) (jobType : String)
  deriving Repr

/-- Dispatch a gateway-performing operation. -/
def runGwOp (gwOk : Bool) (op : GwOp) (s : EscrowState) :
    EscrowState × Except BotError Unit :=
  match op with
  | .delivery actorTg dealId => confirmDelivery gwOk actorTg dealId s
  | .release actorTg milestoneId => releaseMilestone gwOk actorTg milestoneId s
  | .split dealId sellerAmount => adminSplit gwOk dealId sellerAmount s
  | .refundEntity entityId => adminRefund gwOk entityId s
  | .sched dealId jobType => runScheduledJob gwOk dealId jobType s

/-! ### Helper lemmas about lookups and updates -/

theorem find?_updateBy_pos {α : Type} (p : α → Bool) (f : α → α)
    (hf : ∀ a, p a = true → p (f a) = true) :
    ∀ l : List α, (updateBy l p f).find? p = (l.find? p).map f
  | [] => rfl
  | a :: t => by
    cases hpa : p a with
    | true =>
      rw [updateBy, List.map_cons, if_pos hpa, List.find?_cons_of_pos _ (hf a hpa),
          List.find?_cons_of_pos _ hpa, Option.map_some']
    | false =>
      rw [updateBy, List.map_cons, if_neg (by simp [hpa]),
          List.find?_cons_of_neg _ (by simp [hpa]), List.find?_cons_of_neg _ (by simp [hpa])]
      exact find?_updateBy_pos p f hf t

theorem find?_updateBy_none {α : Type} (p q : α → Bool) (f : α → α)
    (hf : ∀ a, p (f a) = p a) (l : List α) (h : l.find? p = none) :
    (updateBy l q f).find? p = none := by
  rw [List.find?_eq_none] at h ⊢
  intro x hx
  rw [updateBy, List.mem_map] at hx
  obtain ⟨a, ha, rfl⟩ := hx
  by_cases hqa : q a = true
  · rw [if_pos hqa, hf a]
    exact h a ha
  · rw [if_neg hqa]
    exact h a ha

theorem find?_updateBy_disj {α : Type} (p q : α → Bool) (f : α → α)
    (hpf : ∀ a, p (f a) = p a) (hpq : ∀ a, p a = true → q a = false) :
    ∀ l : List α, (updateBy l q f).find? p = l.find? p
  | [] => rfl
  | a :: t => by
    cases hpa : p a with
    | true =>
      have hqa : q a = false := hpq a hpa
      rw [updateBy, List.map_cons, if_neg (by simp [hqa]),
          List.find?_cons_of_pos _ hpa, List.find?_cons_of_pos _ hpa]
    | false =>
      have himg : p (if (q a : Bool) then f a else a) = false := by
        split
        · rw [hpf]
          exact hpa
        · exact hpa
      rw [updateBy, List.map_cons, List.find?_cons_of_neg _ (by simp [himg]),
          List.find?_cons_of_neg _ (by simp [hpa])]
      exact find?_updateBy_disj p q f hpf hpq t

theorem find?_updateBy_isSome {α : Type} (p q : α → Bool) (f : α → α)
    (hpf : ∀ a, p (f a) = p a) :
    ∀ l : List α, ((updateBy l q f).find? p).isSome = (l.find? p).isSome
  | [] => rfl
  | a :: t => by
    cases hpa : p a with
    | true =>
      have himg : p (if (q a : Bool) then f a else a) = true := by
        split
        · rw [hpf]
          exact hpa
        · exact hpa
      rw [updateBy, List.map_cons, List.find?_cons_of_pos _ himg,
          List.find?_cons_of_pos _ hpa]
      rfl
    | false =>
      have himg : p (if (q a : Bool) then f a else a) = false := by
        split
        · rw [hpf]
          exact hpa
        · exact hpa
      rw [updateBy, List.map_cons, List.find?_cons_of_neg _ (by simp [himg]),
          List.find?_cons_of_neg _ (by simp [hpa])]
      exact find?_updateBy_isSome p q f hpf t

theorem findUser_updateUserBy (l : List User) (i : Nat) (f : User → User)
    (hf : ∀ u, (f u).id = u.id) :
    findUser (updateUserBy l i f) i = (findUser l i).map f := by
  rw [findUser, updateUserBy, find?_updateBy_pos]
  · rfl
  · intro a ha
    show ((f a).id == i) = true
    rw [hf a]
    exact ha

theorem findDeal_updateDealBy (l : List Deal) (i : Nat) (f : Deal → Deal)
    (hf : ∀ x, (f x).id = x.id) :
    findDeal (updateDealBy l i f) i = (findDeal l i).map f := by
  rw [findDeal, updateDealBy, find?_updateBy_pos]
  · rfl
  · intro a ha
    show ((f a).id == i) = true
    rw [hf a]
    exact ha

theorem findReferralFor_updateReferralFor (l : List Referral) (i : Nat)
    (f : Referral → Referral) (hf : ∀ x, (f x).referredUserId = x.referredUserId) :
    findReferralFor (updateReferralFor l i f) i = (findReferralFor l i).map f := by
  rw [findReferralFor, updateReferralFor, find?_updateBy_pos]
  · rfl
  · intro a ha
    show ((f a).referredUserId == i) = true
    rw [hf a]
    exact ha

theorem countCompletedDeals_pos {deals : List Deal} {uid : Nat} {d : Deal}
    (hmem : d ∈ deals) (hinv : dealInvolves d uid = true) (hst : d.status = "completed") :
    1 ≤ countCompletedDeals deals uid := by
  have hd : d ∈ deals.filter fun d' => dealInvolves d' uid && d'.status == "completed" := by
    rw [List.mem_filter]
    exact ⟨hmem, by simp [hinv, hst]⟩
  rw [countCompletedDeals]
  exact List.length_pos.mpr (List.ne_nil_of_mem hd)

/-- When the user is known, referred with an unclaimed reward, has at least
one completed deal, and the referrer is known, the referral check credits the
referrer, marks the referral claimed and notifies the referrer. -/
theorem checkAndAwardReferral_awards (uid : Nat) (s : EscrowState)
    (u refUser : User) (r : Referral)
    (hu : findUser s.users uid = some u)
    (hr : findReferralFor s.referrals uid = some r)
    (hrc : r.rewardClaimed = false)
    (hcnt : 1 ≤ countCompletedDeals s.deals uid)
    (href : findUser s.users r.referrerId = some refUser) :
    checkAndAwardReferral uid s =
      { s with
        users := updateUserBy s.users r.referrerId
          (fun u' => { u' with freeTradesRemaining := u'.freeTradesRemaining + 1 }),
        referrals := updateReferralFor s.referrals uid
          (fun r' => { r' with rewardClaimed := true }),
        notifications := s.notifications ++ [(r.referrerId, "referral_reward")] } := by
  simp [checkAndAwardReferral, hu, hr, hrc, hcnt, href]

/-- The referral check is a no-op for a user who was never referred. -/
theorem checkAndAwardReferral_no_referral (uid : Nat) (s : EscrowState)
    (hr : findReferralFor s.referrals uid = none) :
    checkAndAwardReferral uid s = s := by
  unfold checkAndAwardReferral
  cases hu : findUser s.users uid with
  | none => rfl
  | some u => rw [hr]

/-- The referral check for one user leaves the referral entry of any other
user unchanged. -/
theorem checkAndAwardReferral_findReferralFor_other (uid2 j : Nat) (t : EscrowState)
    (hne : j ≠ uid2) :
    findReferralFor (checkAndAwardReferral uid2 t).referrals j =
      findReferralFor t.referrals j := by
  unfold checkAndAwardReferral
  cases hu : findUser t.users uid2 with
  | none => rfl
  | some u =>
    cases hr : findReferralFor t.referrals uid2 with
    | none => rfl
    | some r2 =>
      by_cases hc : r2.rewardClaimed
      · simp [hc]
      · by_cases hcnt : 1 ≤ countCompletedDeals t.deals uid2
        · cases href : findUser t.users r2.referrerId with
          | none => simp [hc, hcnt, href]
          | some ru =>
            simp [hc, hcnt, href]
            rw [findReferralFor, updateReferralFor, find?_updateBy_disj]
            all_goals first
              | rfl
              | (intro a
                 rfl)
              | (intro a ha
                 have haj : a.referredUserId = j := eq_of_beq ha
                 rw [haj]
                 cases hb : (j == uid2) with
                 | false => rfl
                 | true => exact absurd (eq_of_beq hb) hne)
        · simp [hc, hcnt]

/-- The referral check for one user leaves any user record unchanged whose id
is not the referrer it credits. -/
theorem checkAndAwardReferral_findUser_other (uid2 j : Nat) (t : EscrowState)
    (hj : ∀ r2, findReferralFor t.referrals uid2 = some r2 → r2.rewardClaimed = false →
        r2.referrerId ≠ j) :
    findUser (checkAndAwardReferral uid2 t).users j = findUser t.users j := by
  unfold checkAndAwardReferral
  cases hu : findUser t.users uid2 with
  | none => rfl
  | some u =>
    cases hr : findReferralFor t.referrals uid2 with
    | none => rfl
    | some r2 =>
      by_cases hc : r2.rewardClaimed
      · simp [hc]
      · by_cases hcnt : 1 ≤ countCompletedDeals t.deals uid2
        · cases href : findUser t.users r2.referrerId with
          | none => simp [hc, hcnt, href]
          | some ru =>
            have hne : r2.referrerId ≠ j := hj r2 hr (by simpa using hc)
            simp [hc, hcnt, href]
            rw [findUser, updateUserBy, find?_updateBy_disj]
            all_goals first
              | rfl
              | (intro a
                 rfl)
              | (intro a ha
                 have haj : a.id = j := eq_of_beq ha
                 rw [haj]
                 cases hb : (j == r2.referrerId) with
                 | false => rfl
                 | true => exact absurd (eq_of_beq hb).symm hne)
        · simp [hc, hcnt]

/-- The referral check preserves the existence of every user record. -/
theorem checkAndAwardReferral_findUser_isSome (uid2 j : Nat) (t : EscrowState) :
    (findUser (checkAndAwardReferral uid2 t).users j).isSome =
      (findUser t.users j).isSome := by
  unfold checkAndAwardReferral
  cases hu : findUser t.users uid2 with
  | none => rfl
  | some u =>
    cases hr : findReferralFor t.referrals uid2 with
    | none => rfl
    | some r2 =>
      by_cases hc : r2.rewardClaimed
      · simp [hc]
      · by_cases hcnt : 1 ≤ countCompletedDeals t.deals uid2
        · cases href : findUser t.users r2.referrerId with
          | none => simp [hc, hcnt, href]
          | some ru =>
            simp [hc, hcnt, href]
            rw [findUser, updateUserBy, find?_updateBy_isSome]
            all_goals first
              | rfl
              | (intro a
                 rfl)
        · simp [hc, hcnt]

/-- The referral check never touches the deals table. -/
theorem checkAndAwardReferral_deals (uid : Nat) (s : EscrowState) :
    (checkAndAwardReferral uid s).deals = s.deals := by
  unfold checkAndAwardReferral
  repeat' split
  all_goals rfl

/-- The referral check never touches the milestones table. -/
theorem checkAndAwardReferral_milestones (uid : Nat) (s : EscrowState) :
    (checkAndAwardReferral uid s).milestones = s.milestones := by
  unfold checkAndAwardReferral
  repeat' split
  all_goals rfl

/-- The referral check never touches the job queue. -/
theorem checkAndAwardReferral_jobs (uid : Nat) (s : EscrowState) :
    (checkAndAwardReferral uid s).jobs = s.jobs := by
  unfold checkAndAwardReferral
  repeat' split
  all_goals rfl

/-- Running the referral check for both parties of a deal, creator first as
the source does, awards a designated qualifying party: its referral becomes
claimed and its referrer gains exactly one credit — provided the other
party's award, if it happens, credits a different referrer. -/
theorem checkAndAwardReferral_both (cId kId uid other : Nat) (t : EscrowState)
    (refUser : User) (r : Referral)
    (hne : cId ≠ kId)
    (hroles : (uid = cId ∧ other = kId) ∨ (uid = kId ∧ other = cId))
    (hu : (findUser t.users uid).isSome = true)
    (hr : findReferralFor t.referrals uid = some r)
    (hrc : r.rewardClaimed = false)
    (hcnt : 1 ≤ countCompletedDeals t.deals uid)
    (href : findUser t.users r.referrerId = some refUser)
    (hshare : ∀ r2, findReferralFor t.referrals other = some r2 →
        r2.rewardClaimed = false → r2.referrerId ≠ r.referrerId) :
    findUser (checkAndAwardReferral kId (checkAndAwardReferral cId t)).users r.referrerId =
      some { refUser with freeTradesRemaining := refUser.freeTradesRemaining + 1 } ∧
    findReferralFor (checkAndAwardReferral kId
        (checkAndAwardReferral cId t)).referrals uid =
      some { r with rewardClaimed := true } := by
  rcases hroles with ⟨h1, h2⟩ | ⟨h1, h2⟩
  · -- the designated party is awarded first
    rw [← h1, ← h2]
    have hne' : uid ≠ other := by
      rw [h1, h2]
      exact hne
    obtain ⟨u, hu'⟩ := Option.isSome_iff_exists.mp hu
    have haw1 := checkAndAwardReferral_awards uid t u refUser r hu' hr hrc hcnt href
    have hrefk : findReferralFor (checkAndAwardReferral uid t).referrals other =
        findReferralFor t.referrals other :=
      checkAndAwardReferral_findReferralFor_other uid other t (Ne.symm hne')
    have hj : ∀ r2, findReferralFor (checkAndAwardReferral uid t).referrals other = some r2 →
        r2.rewardClaimed = false → r2.referrerId ≠ r.referrerId := by
      rw [hrefk]
      exact hshare
    constructor
    · rw [checkAndAwardReferral_findUser_other other r.referrerId _ hj, haw1]
      show findUser (updateUserBy t.users r.referrerId
        (fun u' => { u' with freeTradesRemaining := u'.freeTradesRemaining + 1 }))
          r.referrerId = _
      rw [findUser_updateUserBy]
      · rw [href]
        rfl
      · intro x
        rfl
    · rw [checkAndAwardReferral_findReferralFor_other other uid _ hne', haw1]
      show findReferralFor (updateReferralFor t.referrals uid
        (fun r' => { r' with rewardClaimed := true })) uid = _
      rw [findReferralFor_updateReferralFor]
      · rw [hr]
        rfl
      · intro x
        rfl
  · -- the designated party is awarded second
    rw [← h1, ← h2]
    have hiso : (findUser (checkAndAwardReferral other t).users uid).isSome = true := by
      rw [checkAndAwardReferral_findUser_isSome]
      exact hu
    obtain ⟨u2, hu2⟩ := Option.isSome_iff_exists.mp hiso
    have hne' : uid ≠ other := by
      rw [h1, h2]
      exact Ne.symm hne
    have hr2 : findReferralFor (checkAndAwardReferral other t).referrals uid = some r := by
      rw [checkAndAwardReferral_findReferralFor_other other uid t hne']
      exact hr
    have hcnt2 : 1 ≤ countCompletedDeals (checkAndAwardReferral other t).deals uid := by
      rw [checkAndAwardReferral_deals]
      exact hcnt
    have href2 : findUser (checkAndAwardReferral other t).users r.referrerId =
        some refUser := by
      rw [checkAndAwardReferral_findUser_other other r.referrerId t hshare]
      exact href
    have haw2 := checkAndAwardReferral_awards uid (checkAndAwardReferral other t) u2 refUser r
      hu2 hr2 hrc hcnt2 href2
    rw [haw2]
    constructor
    · show findUser (updateUserBy (checkAndAwardReferral other t).users r.referrerId
        (fun u' => { u' with freeTradesRemaining := u'.freeTradesRemaining + 1 }))
          r.referrerId = _
      rw [findUser_updateUserBy]
      · rw [href2]
        rfl
      · intro x
        rfl
    · show findReferralFor (updateReferralFor (checkAndAwardReferral other t).referrals uid
        (fun r' => { r' with rewardClaimed := true })) uid = _
      rw [findReferralFor_updateReferralFor]
      · rw [hr2]
        rfl
      · intro x
        rfl


/-! ### Concrete sample states for the counterexamples and demonstrations -/

/-- Seller of the sample trades. -/
def sellerU : User :=
  { id := 1, telegramId := 100, stripeAccountId := some "acct_seller",
    isVerified := false, freeTradesRemaining := 0 }

/-- Buyer of the sample trades. -/
def buyerU : User :=
  { id := 2, telegramId := 200, stripeAccountId := none,
    isVerified := false, freeTradesRemaining := 0 }

/-- Referrer of the buyer in the referral scenarios. -/
def referrerU : User :=
  { id := 3, telegramId := 300, stripeAccountId := none,
    isVerified := false, freeTradesRemaining := 0 }

/-- A trade deal record template. -/
def tradeDeal (st : String) (ph : Option String) (pid : Option String)
    (job : Option String) : Deal :=
  { id := 1, creatorId := 1, counterpartyId := 2, title := "Nike Dunks",
    currency := "usd", totalAmount := 100, status := st, dealType := "trade",
    tradeStatus := ph, paymentIntentId := pid, autoJobId := job }

/-- Disputed, funded trade: the state right after a dispute was raised. -/
def stDisputed : EscrowState :=
  { users := [sellerU, buyerU], deals := [tradeDeal "disputed" (some "funded") (some "pi_1") none],
    milestones := [], referrals := [], jobs := [], gatewayLog := [], notifications := [] }

/-- Trade already auto-refunded by the ship_by deadline. -/
def stRefunded : EscrowState :=
  { users := [sellerU, buyerU],
    deals := [tradeDeal "cancelled" (some "refunded") (some "pi_1") (some "check_unshipped_1")],
    milestones := [], referrals := [], jobs := [], gatewayLog := [], notifications := [] }

/-- Fresh pending trade draft, before the offer is sent. -/
def stDraft : EscrowState :=
  { users := [sellerU, buyerU], deals := [tradeDeal "pending" none none none],
    milestones := [], referrals := [], jobs := [], gatewayLog := [], notifications := [] }

/-- Pending trade whose offer was sent: the 24h expire_offer job is live. -/
def stOffered : EscrowState :=
  { users := [sellerU, buyerU],
    deals := [tradeDeal "pending" none none (some "expire_offer_1")],
    milestones := [], referrals := [],
    jobs := [{ id := "expire_offer_1", dealId := 1, jobType := "expire_offer", runTime := 24 }],
    gatewayLog := [], notifications := [] }

/-- Shipped trade whose buyer was referred and has no completed deal yet. -/
def stShippedReferred : EscrowState :=
  { users := [sellerU, buyerU, referrerU],
    deals := [tradeDeal "funded" (some "shipped") (some "pi_1") (some "auto_release_1")],
    milestones := [],
    referrals := [{ id := 1, referrerId := 3, referredUserId := 2, rewardClaimed := false }],
    jobs := [{ id := "auto_release_1", dealId := 1, jobType := "check_unconfirmed_deliveries",
               runTime := 336 }],
    gatewayLog := [], notifications := [] }

/-- Shipped trade whose seller (creator) was referred, with the reward
unclaimed and no completed deal yet. -/
def stShippedCreatorReferred : EscrowState :=
  { users := [sellerU, buyerU, referrerU],
    deals := [tradeDeal "funded" (some "shipped") (some "pi_1") (some "auto_release_1")],
    milestones := [],
    referrals := [{ id := 1, referrerId := 3, referredUserId := 1, rewardClaimed := false }],
    jobs := [{ id := "auto_release_1", dealId := 1, jobType := "check_unconfirmed_deliveries",
               runTime := 336 }],
    gatewayLog := [], notifications := [] }

/-- A milestone-project deal record template. -/
def projectDeal (st : String) : Deal :=
  { id := 5, creatorId := 1, counterpartyId := 2, title := "Website",
    currency := "usd", totalAmount := 60, status := st, dealType := "milestone",
    tradeStatus := none, paymentIntentId := none, autoJobId := none }

/-- Milestone project with a single funded, unreleased milestone. -/
def stProject : EscrowState :=
  { users := [sellerU, buyerU],
    deals := [projectDeal "pending"],
    milestones := [{ id := 7, dealId := 5, name := "Design", amount := 60,
                     paymentIntentId := some "pi_ms7", isReleased := false }],
    referrals := [], jobs := [], gatewayLog := [], notifications := [] }

/-- Contractor with a connected payout account. -/
def contractorU : User :=
  { id := 4, telegramId := 400, stripeAccountId := some "acct_contractor",
    isVerified := false, freeTradesRemaining := 0 }

/-- A milestone-project deal whose contractor is user 4. -/
def projectDeal2 (st : String) : Deal :=
  { id := 5, creatorId := 1, counterpartyId := 4, title := "Website",
    currency := "usd", totalAmount := 60, status := st, dealType := "milestone",
    tradeStatus := none, paymentIntentId := none, autoJobId := none }

/-- Milestone project with one funded, unreleased milestone and a connected
contractor. -/
def stProjectConnected : EscrowState :=
  { users := [sellerU, contractorU],
    deals := [projectDeal2 "pending"],
    milestones := [{ id := 7, dealId := 5, name := "Design", amount := 60,
                     paymentIntentId := some "pi_ms7", isReleased := false }],
    referrals := [], jobs := [], gatewayLog := [], notifications := [] }

/-- Milestone project with one funded, unreleased milestone, a connected
contractor, and a referred client (creator) with no completed deal yet. -/
def stProjectReferred : EscrowState :=
  { users := [sellerU, contractorU, referrerU],
    deals := [projectDeal2 "pending"],
    milestones := [{ id := 7, dealId := 5, name := "Design", amount := 60,
                     paymentIntentId := some "pi_ms7", isReleased := false }],
    referrals := [{ id := 2, referrerId := 3, referredUserId := 1, rewardClaimed := false }],
    jobs := [], gatewayLog := [], notifications := [] }

/-- The payment-confirmation event for the sample trade deal. -/
def evTrade : StripeEvent :=
  { type := "checkout.session.completed", paymentIntentId := "pi_1",
    milestoneId := none, dealId := some 1, amountTotal := 100, currency := "usd" }

/-! ### Claim theorems -/

/-- C1: the claim says every party-triggered trade operation on a deal with
status disputed is rejected with InvalidState and changes nothing.  The code
does not guard trade actions on the dispute status (the disputed check in
button_handler covers only the milestone actions): on a disputed, funded
trade the seller's mark_shipped succeeds, moves the trade phase to shipped
and schedules a fresh auto-release job, with the status still disputed. -/
theorem C1_disputed_trade_not_locked :
    (markShipped 0 100 1 stDisputed).2 = .ok () ∧
    findDeal (markShipped 0 100 1 stDisputed).1.deals 1 =
      some (tradeDeal "disputed" (some "shipped") (some "pi_1") (some "auto_release_1")) ∧
    (markShipped 0 100 1 stDisputed).1.jobs =
      [{ id := "auto_release_1", dealId := 1, jobType := "check_unconfirmed_deliveries",
         runTime := 168 }] :=
  ⟨rfl, rfl, rfl⟩

/-- C5: the claim says mark_shipped succeeds only when the trade phase is
funded, and in particular fails with InvalidState on a deal already
auto-refunded.  The code checks only that the actor is the seller: on a deal
with status cancelled and phase refunded, mark_shipped succeeds, sets the
phase to shipped and schedules an auto-release job. -/
theorem C5_mark_shipped_unguarded :
    (markShipped 0 100 1 stRefunded).2 = .ok () ∧
    findDeal (markShipped 0 100 1 stRefunded).1.deals 1 =
      some (tradeDeal "cancelled" (some "shipped") (some "pi_1") (some "auto_release_1")) ∧
    (markShipped 0 100 1 stRefunded).1.jobs =
      [{ id := "auto_release_1", dealId := 1, jobType := "check_unconfirmed_deliveries",
         runTime := 168 }] :=
  ⟨rfl, rfl, rfl⟩

/-- C2 counterexample: on a pending trade with the 24h expire_offer job live,
the payment-confirmation event marks the deal funded but leaves the job
queue, the users table and the gateway log untouched: contrary to the claim
it neither cancels the offer_expiry deadline, nor registers a ship_by
deadline, nor performs the fee/credit computation. -/
theorem C2_counterexample :
    (webhook evTrade stOffered).jobs = stOffered.jobs ∧
    stOffered.jobs = [{ id := "expire_offer_1", dealId := 1, jobType := "expire_offer",
                        runTime := 24 }] ∧
    (webhook evTrade stOffered).users = stOffered.users ∧
    (webhook evTrade stOffered).gatewayLog = [] ∧
    findDeal (webhook evTrade stOffered).deals 1 =
      some (tradeDeal "funded" (some "funded") (some "pi_1") (some "expire_offer_1")) :=
  ⟨rfl, rfl, rfl, rfl, rfl⟩

/-- C3 counterexample: after send_offer and then pay_trade, the sample deal
holds two live jobs at once (expire_offer and check_unshipped): pay_trade
schedules its deadline without cancelling the existing one. -/
theorem C3_counterexample :
    ((payTrade 5 0 200 1 (sendOffer 0 100 1 stDraft).1).1.jobs.filter
        fun j => j.dealId == 1).length = 2 :=
  rfl

/-- C7 counterexample: a shipped trade whose buyer was referred, with the
reward unclaimed and no prior completed deal, completes through the
delivery_confirm deadline; the scheduler callback prompts for ratings but
runs no referral check, so the referrer's credit stays at zero and the
referral stays unclaimed, contrary to the claim. -/
theorem C7_counterexample :
    findDeal (runScheduledJob true 1 "check_unconfirmed_deliveries"
        stShippedReferred).1.deals 1 =
      some (tradeDeal "completed" (some "completed") (some "pi_1") (some "auto_release_1")) ∧
    findUser (runScheduledJob true 1 "check_unconfirmed_deliveries"
        stShippedReferred).1.users 3 = some referrerU ∧
    findReferralFor (runScheduledJob true 1 "check_unconfirmed_deliveries"
        stShippedReferred).1.referrals 2 =
      some { id := 1, referrerId := 3, referredUserId := 2, rewardClaimed := false } :=
  ⟨rfl, rfl, rfl⟩

/-- C9 counterexample: admin_refund of the only (funded) milestone of a
project marks the milestone released as a terminal marker and cancels the
deal: every milestone of the deal is then released while the deal's status
is cancelled, not completed, so all-milestones-released does not imply the
deal is completed. -/
theorem C9_counterexample :
    ((adminRefund true 7 stProject).1.milestones.filter
        fun m => m.dealId == 5).all (fun m => m.isReleased) = true ∧
    findDeal (adminRefund true 7 stProject).1.deals 5 = some (projectDeal "cancelled") :=
  ⟨rfl, rfl⟩

/-- C6: for every operation that performs a gateway transfer or refund
(confirm_delivery, release_milestone, admin split, admin refund, the
deadline callback), if the run with a working gateway would have made a
gateway call, then the run whose gateway call raises reports a gateway error
and commits no entity mutation: deals, milestones, users and referrals are
exactly as before. -/
theorem C6_gateway_failure_atomic (op : GwOp) (s : EscrowState)
    (h : (runGwOp true op s).1.gatewayLog ≠ s.gatewayLog) :
    (runGwOp false op s).2 = .error .gatewayError ∧
    (runGwOp false op s).1.deals = s.deals ∧
    (runGwOp false op s).1.milestones = s.milestones ∧
    (runGwOp false op s).1.users = s.users ∧
    (runGwOp false op s).1.referrals = s.referrals := by
  cases op with
  | delivery actorTg dealId =>
    simp only [runGwOp, confirmDelivery] at h ⊢
    cases hd : findDeal s.deals dealId with
    | none => simp [hd] at h
    | some d =>
      cases hc : findUser s.users d.creatorId with
      | none => simp [hd, hc] at h
      | some creator =>
        cases hb : findUser s.users d.counterpartyId with
        | none => simp [hd, hc, hb] at h
        | some buyer =>
          by_cases ha : actorTg = buyer.telegramId
          · simp [hd, hc, hb, ha]
          · simp [hd, hc, hb, ha] at h
  | release actorTg milestoneId =>
    simp only [runGwOp, releaseMilestone] at h ⊢
    cases hm : findMilestone s.milestones milestoneId with
    | none => simp [hm] at h
    | some m =>
      cases hd : findDeal s.deals m.dealId with
      | none => simp [hm, hd] at h
      | some d =>
        by_cases hdi : d.status = "disputed"
        · simp [hm, hd, hdi] at h
        · cases hc : findUser s.users d.creatorId with
          | none => simp [hm, hd, hdi, hc] at h
          | some creator =>
            cases hk : findUser s.users d.counterpartyId with
            | none => simp [hm, hd, hdi, hc, hk] at h
            | some contractor =>
              by_cases ha : actorTg = creator.telegramId
              · cases hacct : contractor.stripeAccountId with
                | none => simp [hm, hd, hdi, hc, hk, ha, hacct] at h
                | some acct => simp [hm, hd, hdi, hc, hk, ha, hacct]
              · simp [hm, hd, hdi, hc, hk, ha] at h
  | split dealId sellerAmount =>
    simp only [runGwOp, adminSplit] at h ⊢
    cases hd : findDeal s.deals dealId with
    | none => simp [hd] at h
    | some d =>
      cases hp : d.paymentIntentId with
      | none => simp [hd, hp] at h
      | some pid =>
        by_cases hv : sellerAmount < 0 ∨ d.totalAmount < sellerAmount
        · simp [hd, hp, hv] at h
        · cases hc : findUser s.users d.creatorId with
          | none => simp [hd, hp, hv, hc] at h
          | some creator =>
            by_cases hs1 : 0 < sellerAmount
            · simp [hd, hp, hv, hc, hs1]
            · by_cases hs2 : sellerAmount < d.totalAmount
              · simp [hd, hp, hv, hc, hs1, hs2, sub_pos]
              · simp [hd, hp, hv, hc, hs1, hs2, sub_pos] at h
  | refundEntity entityId =>
    simp only [runGwOp, adminRefund] at h ⊢
    cases hm : findMilestone s.milestones entityId with
    | none =>
      simp only [adminRefundDealBranch] at h ⊢
      cases hd : findDeal s.deals entityId with
      | none => simp [hm, hd] at h
      | some d =>
        cases hp : d.paymentIntentId with
        | none => simp [hm, hd, hp] at h
        | some pid => simp [hm, hd, hp]
    | some m =>
      cases hp : m.paymentIntentId with
      | none =>
        simp only [adminRefundDealBranch] at h ⊢
        cases hd : findDeal s.deals entityId with
        | none => simp [hm, hd, hp] at h
        | some d =>
          cases hp2 : d.paymentIntentId with
          | none => simp [hm, hd, hp, hp2] at h
          | some pid2 => simp [hm, hd, hp, hp2]
      | some pid => simp [hm, hp]
  | sched dealId jobType =>
    simp only [runGwOp, runScheduledJob] at h ⊢
    cases hd : findDeal s.deals dealId with
    | none => simp [hd] at h
    | some d =>
      by_cases h1 : jobType = "expire_offer" ∧ d.status = "pending"
      · simp [hd, h1] at h
      · by_cases h2 : jobType = "check_unshipped_trades" ∧ d.tradeStatus = some "funded"
        · simp [hd, h1, h2]
        · by_cases h3 : jobType = "check_unconfirmed_deliveries" ∧
              d.tradeStatus = some "shipped"
          · cases hc : findUser s.users d.creatorId with
            | none => simp [hd, h1, h2, h3, hc] at h
            | some creator => simp [hd, h1, h2, h3, hc]
          · simp [hd, h1, h2, h3] at h

/-- C6 witness: on the shipped sample trade, confirm_delivery with a working
gateway logs a transfer, and with a failing gateway it reports a gateway
error and leaves every table unchanged. -/
theorem C6_witness :
    (runGwOp false (.delivery 200 1) stShippedReferred).2 = .error .gatewayError ∧
    (runGwOp false (.delivery 200 1) stShippedReferred).1.deals = stShippedReferred.deals ∧
    (runGwOp false (.delivery 200 1) stShippedReferred).1.milestones =
      stShippedReferred.milestones ∧
    (runGwOp false (.delivery 200 1) stShippedReferred).1.users = stShippedReferred.users ∧
    (runGwOp false (.delivery 200 1) stShippedReferred).1.referrals =
      stShippedReferred.referrals :=
  C6_gateway_failure_atomic (.delivery 200 1) stShippedReferred (by simp; decide)

/-- C9 amended: release_milestone completes the deal exactly when, after the
release, no unreleased milestone of the deal remains: releasing a milestone
while another is unreleased leaves the deal status unchanged, and releasing
the last unreleased one sets status completed.  The biconditional of the
original claim fails in general: admin_refund marks a milestone released as
a terminal marker while cancelling the deal (see the counterexample). -/
theorem C9_amended (actorTg milestoneId : Nat) (s : EscrowState)
    (m : Milestone) (d : Deal) (creator contractor : User) (acct : String)
    (hm : findMilestone s.milestones milestoneId = some m)
    (hd : findDeal s.deals m.dealId = some d)
    (hdi : d.status ≠ "disputed")
    (hc : findUser s.users d.creatorId = some creator)
    (hk : findUser s.users d.counterpartyId = some contractor)
    (ha : actorTg = creator.telegramId)
    (hacct : contractor.stripeAccountId = some acct) :
    (((updateMilestoneBy s.milestones milestoneId fun m' =>
        { m' with isReleased := true }).filter
        fun m' => m'.dealId == d.id && m'.isReleased == false).length = 0 →
      findDeal (releaseMilestone true actorTg milestoneId s).1.deals m.dealId =
        some { d with status := "completed" }) ∧
    (((updateMilestoneBy s.milestones milestoneId fun m' =>
        { m' with isReleased := true }).filter
        fun m' => m'.dealId == d.id && m'.isReleased == false).length ≠ 0 →
      findDeal (releaseMilestone true actorTg milestoneId s).1.deals m.dealId = some d) := by
  have hide : d.id = m.dealId := by
    have hd' : s.deals.find? (fun x => x.id == m.dealId) = some d := hd
    exact Nat.eq_of_beq_eq_true (by simpa using List.find?_some hd')
  constructor
  · intro hall
    have hall' := hall
    simp at hall'
    have hrel : (releaseMilestone true actorTg milestoneId s).1 =
        checkAndAwardReferral d.counterpartyId (checkAndAwardReferral d.creatorId
          { s with
            milestones := updateMilestoneBy s.milestones milestoneId
              fun m' => { m' with isReleased := true },
            deals := updateDealBy s.deals d.id fun d' => { d' with status := "completed" },
            gatewayLog := s.gatewayLog ++
              [.transfer m.amount d.currency (some acct) ("deal-" ++ toString d.id)],
            notifications := s.notifications ++ [(d.creatorId, "released")] }) := by
      simp [releaseMilestone, hm, hd, hdi, hc, hk, ha, hacct, eq_true hall']
    rw [hrel, checkAndAwardReferral_deals, checkAndAwardReferral_deals]
    show findDeal (updateDealBy s.deals d.id fun d' => { d' with status := "completed" })
      m.dealId = _
    have hd2 : findDeal s.deals d.id = some d := by rw [hide]; exact hd
    rw [← hide, findDeal_updateDealBy]
    · rw [hd2]
      rfl
    · intro x
      rfl
  · intro hall
    have hall' := hall
    simp at hall'
    have hnall : ¬ ∀ a ∈ (updateMilestoneBy s.milestones milestoneId fun m' =>
        { m' with isReleased := true }), a.dealId = d.id → a.isReleased = true := by
      push_neg
      obtain ⟨x, hx, h1, h2⟩ := hall'
      exact ⟨x, hx, h1, by simp [h2]⟩
    by_cases hdc : d.status = "completed"
    · have hrel : (releaseMilestone true actorTg milestoneId s).1 =
          checkAndAwardReferral d.counterpartyId (checkAndAwardReferral d.creatorId
            { s with
              milestones := updateMilestoneBy s.milestones milestoneId
                fun m' => { m' with isReleased := true },
              deals := s.deals,
              gatewayLog := s.gatewayLog ++
                [.transfer m.amount d.currency (some acct) ("deal-" ++ toString d.id)],
              notifications := s.notifications ++ [(d.creatorId, "released")] }) := by
        simp [releaseMilestone, hm, hd, hdi, hc, hk, ha, hacct, eq_false hnall, hdc]
      rw [hrel, checkAndAwardReferral_deals, checkAndAwardReferral_deals]
      exact hd
    · have hrel : (releaseMilestone true actorTg milestoneId s).1 =
          { s with
            milestones := updateMilestoneBy s.milestones milestoneId
              fun m' => { m' with isReleased := true },
            deals := s.deals,
            gatewayLog := s.gatewayLog ++
              [.transfer m.amount d.currency (some acct) ("deal-" ++ toString d.id)],
            notifications := s.notifications ++ [(d.creatorId, "released")] } := by
        simp [releaseMilestone, hm, hd, hdi, hc, hk, ha, hacct, eq_false hnall, hdc]
      rw [hrel]
      exact hd

/-- C9 amended witness: releasing the single funded milestone of the sample
project (with a contractor who has a connected account) completes the deal. -/
theorem C9_amended_witness :
    findDeal (releaseMilestone true 100 7 stProjectConnected).1.deals 5 =
      some (projectDeal2 "completed") :=
  (C9_amended 100 7 stProjectConnected _ _ _ _ "acct_contractor"
    rfl rfl (by decide) rfl rfl rfl rfl).1 (by decide)

/-- C10: the webhook's effect depends only on the event type, the payment
intent id and the metadata keys; two events with identical metadata but
different paid amounts or currencies produce identical states. -/
theorem C10_webhook_amount_independent (e1 e2 : StripeEvent) (s : EscrowState)
    (h1 : e1.type = e2.type) (h2 : e1.paymentIntentId = e2.paymentIntentId)
    (h3 : e1.milestoneId = e2.milestoneId) (h4 : e1.dealId = e2.dealId) :
    webhook e1 s = webhook e2 s := by
  simp only [webhook, h1, h2, h3, h4]

/-- C4: reconciling the same payment-confirmation event twice is identical to
reconciling it once: the second delivery is discarded because the target
milestone already holds a payment reference, or the target deal is no longer
pending.  The state equality covers the tables, the job queue, the gateway
call log and the notifications. -/
theorem C4_reconcile_idempotent (e : StripeEvent) (s : EscrowState) :
    webhook e (webhook e s) = webhook e s := by
  by_cases ht : e.type = "checkout.session.completed"
  case neg =>
    have h1 : webhook e s = s := by simp [webhook, ht]
    rw [h1]
    exact h1
  cases hm : e.milestoneId with
  | some mid =>
    cases hf : findMilestone s.milestones mid with
    | none =>
      have h1 : webhook e s = s := by simp [webhook, ht, hm, hf]
      rw [h1]; exact h1
    | some m =>
      by_cases hp : m.paymentIntentId = none
      · cases hd : findDeal s.deals m.dealId with
        | none =>
          have h1 : webhook e s = s := by simp [webhook, ht, hm, hf, hp, hd]
          rw [h1]; exact h1
        | some d =>
          have h1 : webhook e s =
              { s with
                milestones := updateMilestoneBy s.milestones mid fun m' =>
                  { m' with paymentIntentId := some e.paymentIntentId },
                notifications := s.notifications ++
                  [(d.creatorId, "milestone_funded"),
                   (d.counterpartyId, "milestone_funded")] } := by
            simp [webhook, ht, hm, hf, hp, hd]
          rw [h1]
          have hf2 : findMilestone
              (updateMilestoneBy s.milestones mid fun m' =>
                { m' with paymentIntentId := some e.paymentIntentId }) mid =
              some { m with paymentIntentId := some e.paymentIntentId } := by
            rw [findMilestone, updateMilestoneBy, find?_updateBy_pos]
            · rw [findMilestone] at hf
              rw [hf]
              rfl
            · intro a ha
              exact ha
          simp [webhook, ht, hm, hf2]
      · have h1 : webhook e s = s := by simp [webhook, ht, hm, hf, hp]
        rw [h1]; exact h1
  | none =>
    cases he : e.dealId with
    | none =>
      have h1 : webhook e s = s := by simp [webhook, ht, hm, he]
      rw [h1]; exact h1
    | some did =>
      cases hd : findDeal s.deals did with
      | none =>
        have h1 : webhook e s = s := by simp [webhook, ht, hm, he, hd]
        rw [h1]; exact h1
      | some d =>
        by_cases hs : d.status = "pending"
        · have h1 : webhook e s =
              { s with
                deals := updateDealBy s.deals did fun d' =>
                  { d' with status := "funded", tradeStatus := some "funded",
                            paymentIntentId := some e.paymentIntentId },
                notifications := s.notifications ++
                  [(d.creatorId, "trade_funded"), (d.counterpartyId, "trade_funded")] } := by
            simp [webhook, ht, hm, he, hd, hs]
          rw [h1]
          have hd2 : findDeal
              (updateDealBy s.deals did fun d' =>
                { d' with status := "funded", tradeStatus := some "funded",
                          paymentIntentId := some e.paymentIntentId }) did =
              some { d with status := "funded", tradeStatus := some "funded",
                            paymentIntentId := some e.paymentIntentId } := by
            rw [findDeal, updateDealBy, find?_updateBy_pos]
            · rw [findDeal] at hd
              rw [hd]
              rfl
            · intro a ha
              exact ha
          simp [webhook, ht, hm, he, hd2]
        · have h1 : webhook e s = s := by simp [webhook, ht, hm, he, hd, hs]
          rw [h1]; exact h1

/-- C2 amended: processing a payment-confirmation event for a pending trade
deal sets status funded, trade phase funded and the payment reference, and
notifies both parties; it leaves the job queue, the users table and the
gateway log untouched — the fee/credit computation and the 7-day ship_by
deadline are effects of the earlier pay_trade step, and the offer_expiry job
is not cancelled (its status-pending guard neutralises a later firing). -/
theorem C2_amended (e : StripeEvent) (s : EscrowState) (did : Nat) (d : Deal)
    (ht : e.type = "checkout.session.completed") (hm : e.milestoneId = none)
    (he : e.dealId = some did) (hd : findDeal s.deals did = some d)
    (_htr : d.dealType = "trade") (hs : d.status = "pending") :
    (webhook e s).deals = updateDealBy s.deals did (fun d' =>
        { d' with status := "funded", tradeStatus := some "funded",
                  paymentIntentId := some e.paymentIntentId }) ∧
    (webhook e s).jobs = s.jobs ∧
    (webhook e s).users = s.users ∧
    (webhook e s).gatewayLog = s.gatewayLog ∧
    (webhook e s).notifications = s.notifications ++
      [(d.creatorId, "trade_funded"), (d.counterpartyId, "trade_funded")] := by
  simp [webhook, ht, hm, he, hd, hs]

/-- C2 amended witness: the amended statement applied to the sample pending
trade with its expire_offer job live. -/
theorem C2_amended_witness :
    (webhook evTrade stOffered).deals = updateDealBy stOffered.deals 1 (fun d' =>
        { d' with status := "funded", tradeStatus := some "funded",
                  paymentIntentId := some "pi_1" }) ∧
    (webhook evTrade stOffered).jobs = stOffered.jobs ∧
    (webhook evTrade stOffered).users = stOffered.users ∧
    (webhook evTrade stOffered).gatewayLog = stOffered.gatewayLog ∧
    (webhook evTrade stOffered).notifications = stOffered.notifications ++
      [(1, "trade_funded"), (2, "trade_funded")] :=
  C2_amended evTrade stOffered 1
    (tradeDeal "pending" none none (some "expire_offer_1")) rfl rfl rfl rfl rfl rfl

/-- C3 amended: mark_shipped cancels the deal's current job before scheduling
its auto-release deadline, but pay_trade appends its check_unshipped deadline
to the queue without cancelling the live offer_expiry job, so a deal can
hold two pending jobs at once; the stale job's firing is neutralised only by
the engine's status guard. -/
theorem C3_amended :
    (∀ (now actorTg dealId : Nat) (s : EscrowState) (d : Deal) (creator : User),
        findDeal s.deals dealId = some d →
        findUser s.users d.creatorId = some creator →
        actorTg = creator.telegramId →
        (markShipped now actorTg dealId s).1.jobs =
          removeJob s.jobs d.autoJobId ++
            [{ id := "auto_release_" ++ toString dealId, dealId := dealId,
               jobType := "check_unconfirmed_deliveries", runTime := now + 168 }]) ∧
    (∀ (percent : ℚ) (now actorTg dealId : Nat) (s : EscrowState) (d : Deal) (buyer : User),
        findDeal s.deals dealId = some d →
        findUser s.users d.counterpartyId = some buyer →
        actorTg = buyer.telegramId →
        (payTrade percent now actorTg dealId s).1.jobs =
          s.jobs ++ [{ id := "check_unshipped_" ++ toString dealId, dealId := dealId,
                       jobType := "check_unshipped_trades", runTime := now + 168 }]) := by
  constructor
  · intro now actorTg dealId s d creator hd hc ha
    simp [markShipped, hd, hc, ha]
  · intro percent now actorTg dealId s d buyer hd hb ha
    simp [payTrade, hd, hb, ha]

/-- C3 amended witness: both parts applied to the sample pending trade with
the live expire_offer job. -/
theorem C3_amended_witness :
    (markShipped 0 100 1 stOffered).1.jobs =
      removeJob stOffered.jobs (some "expire_offer_1") ++
        [{ id := "auto_release_1", dealId := 1, jobType := "check_unconfirmed_deliveries",
           runTime := 168 }] ∧
    (payTrade 5 0 200 1 stOffered).1.jobs =
      stOffered.jobs ++ [{ id := "check_unshipped_1", dealId := 1,
                           jobType := "check_unshipped_trades", runTime := 168 }] :=
  ⟨C3_amended.1 0 100 1 stOffered _ _ rfl rfl rfl,
   C3_amended.2 5 0 200 1 stOffered _ _ rfl rfl rfl⟩

/-- C7 amended: whenever a deal reaches status completed via confirm_delivery
or via release of the last milestone, then for each involved party (creator
or counterparty) that was referred, whose referral reward is unclaimed and
who had no completed deal before this one, the referral is marked claimed and
the party's referrer gains exactly one free-trade credit — the credit count
stated under the proviso that the other party's award, if it happens, credits
a different referrer (a shared referrer would be credited once per qualifying
party).  The delivery_confirm deadline path performs no referral check (see
the counterexample). -/
theorem C7_amended :
    (∀ (actorTg dealId uid other : Nat) (s : EscrowState) (d : Deal)
       (seller buyer refUser : User) (r : Referral),
      findDeal s.deals dealId = some d →
      findUser s.users d.creatorId = some seller →
      findUser s.users d.counterpartyId = some buyer →
      actorTg = buyer.telegramId →
      d.creatorId ≠ d.counterpartyId →
      ((uid = d.creatorId ∧ other = d.counterpartyId) ∨
       (uid = d.counterpartyId ∧ other = d.creatorId)) →
      findReferralFor s.referrals uid = some r →
      r.rewardClaimed = false →
      findUser s.users r.referrerId = some refUser →
      countCompletedDeals s.deals uid = 0 →
      (∀ r2, findReferralFor s.referrals other = some r2 → r2.rewardClaimed = false →
        r2.referrerId ≠ r.referrerId) →
      findUser (confirmDelivery true actorTg dealId s).1.users r.referrerId =
        some { refUser with freeTradesRemaining := refUser.freeTradesRemaining + 1 } ∧
      findReferralFor (confirmDelivery true actorTg dealId s).1.referrals uid =
        some { r with rewardClaimed := true } ∧
      findDeal (confirmDelivery true actorTg dealId s).1.deals dealId =
        some { d with tradeStatus := some "completed", status := "completed" }) ∧
    (∀ (actorTg milestoneId uid other : Nat) (s : EscrowState) (m : Milestone) (d : Deal)
       (creator contractor refUser : User) (acct : String) (r : Referral),
      findMilestone s.milestones milestoneId = some m →
      findDeal s.deals m.dealId = some d →
      d.status ≠ "disputed" →
      findUser s.users d.creatorId = some creator →
      findUser s.users d.counterpartyId = some contractor →
      actorTg = creator.telegramId →
      contractor.stripeAccountId = some acct →
      ((updateMilestoneBy s.milestones milestoneId fun m' =>
          { m' with isReleased := true }).filter
          fun m' => m'.dealId == d.id && m'.isReleased == false).length = 0 →
      d.creatorId ≠ d.counterpartyId →
      ((uid = d.creatorId ∧ other = d.counterpartyId) ∨
       (uid = d.counterpartyId ∧ other = d.creatorId)) →
      findReferralFor s.referrals uid = some r →
      r.rewardClaimed = false →
      findUser s.users r.referrerId = some refUser →
      countCompletedDeals s.deals uid = 0 →
      (∀ r2, findReferralFor s.referrals other = some r2 → r2.rewardClaimed = false →
        r2.referrerId ≠ r.referrerId) →
      findUser (releaseMilestone true actorTg milestoneId s).1.users r.referrerId =
        some { refUser with freeTradesRemaining := refUser.freeTradesRemaining + 1 } ∧
      findReferralFor (releaseMilestone true actorTg milestoneId s).1.referrals uid =
        some { r with rewardClaimed := true } ∧
      findDeal (releaseMilestone true actorTg milestoneId s).1.deals m.dealId =
        some { d with status := "completed" }) := by
  constructor
  · intro actorTg dealId uid other s d seller buyer refUser r hd hc hb ha hneq hroles
      hr hrc href _hfirst hshare
    have hd' : s.deals.find? (fun x => x.id == dealId) = some d := hd
    have hid : (d.id == dealId) = true := by simpa using List.find?_some hd'
    have hmem : d ∈ s.deals := List.mem_of_find?_eq_some hd'
    -- the state committed by confirm_delivery before the referral checks
    set s1 : EscrowState :=
      { s with
        jobs := removeJob s.jobs d.autoJobId,
        gatewayLog := s.gatewayLog ++
          [.transfer d.totalAmount d.currency seller.stripeAccountId
             ("deal-" ++ toString dealId)],
        deals := updateDealBy s.deals dealId fun d' =>
          { d' with tradeStatus := some "completed", status := "completed" },
        notifications := s.notifications ++
          [(d.creatorId, "trade_complete"),
           (d.counterpartyId, "rate_prompt"), (d.creatorId, "rate_prompt")] } with hs1
    have hred : (confirmDelivery true actorTg dealId s).1 =
        checkAndAwardReferral d.counterpartyId (checkAndAwardReferral d.creatorId s1) := by
      rw [hs1]
      simp [confirmDelivery, hd, hc, hb, ha]
    -- the completed deal makes the designated party's completed-deal count positive
    have hcnt : 1 ≤ countCompletedDeals s1.deals uid := by
      rw [hs1]
      apply countCompletedDeals_pos
        (d := { d with tradeStatus := some "completed", status := "completed" })
      · have hmem' := List.mem_map_of_mem
          (fun a => if (a.id == dealId : Bool) then
            { a with tradeStatus := some "completed", status := "completed" } else a) hmem
        rw [updateDealBy, updateBy]
        simpa [hid] using hmem'
      · rcases hroles with ⟨h1, _⟩ | ⟨h1, _⟩ <;> simp [dealInvolves, h1]
      · rfl
    have hu1 : (findUser s1.users uid).isSome = true := by
      rw [hs1]
      rcases hroles with ⟨h1, _⟩ | ⟨h1, _⟩
      · simp [h1, hc]
      · simp [h1, hb]
    have hr1 : findReferralFor s1.referrals uid = some r := by
      rw [hs1]
      exact hr
    have href1 : findUser s1.users r.referrerId = some refUser := by
      rw [hs1]
      exact href
    have hshare1 : ∀ r2, findReferralFor s1.referrals other = some r2 →
        r2.rewardClaimed = false → r2.referrerId ≠ r.referrerId := by
      rw [hs1]
      exact hshare
    have hboth := checkAndAwardReferral_both d.creatorId d.counterpartyId uid other s1
      refUser r hneq hroles hu1 hr1 hrc hcnt href1 hshare1
    rw [hred]
    refine ⟨hboth.1, hboth.2, ?_⟩
    rw [checkAndAwardReferral_deals, checkAndAwardReferral_deals, hs1]
    show findDeal (updateDealBy s.deals dealId fun d' =>
      { d' with tradeStatus := some "completed", status := "completed" }) dealId = _
    rw [findDeal_updateDealBy]
    · rw [hd]
      rfl
    · intro x
      rfl
  · intro actorTg milestoneId uid other s m d creator contractor refUser acct r hm hd hdi
      hc hk ha hacct hall hneq hroles hr hrc href _hfirst hshare
    have hide : d.id = m.dealId := by
      have hd' : s.deals.find? (fun x => x.id == m.dealId) = some d := hd
      exact Nat.eq_of_beq_eq_true (by simpa using List.find?_some hd')
    have hd2 : findDeal s.deals d.id = some d := by
      rw [hide]
      exact hd
    have hmem : d ∈ s.deals := List.mem_of_find?_eq_some
      (show s.deals.find? (fun x => x.id == m.dealId) = some d from hd)
    have hall' := hall
    simp at hall'
    -- the state committed by release_milestone before the referral checks
    set s1 : EscrowState :=
      { s with
        milestones := updateMilestoneBy s.milestones milestoneId
          fun m' => { m' with isReleased := true },
        deals := updateDealBy s.deals d.id fun d' => { d' with status := "completed" },
        gatewayLog := s.gatewayLog ++
          [.transfer m.amount d.currency (some acct) ("deal-" ++ toString d.id)],
        notifications := s.notifications ++ [(d.creatorId, "released")] } with hs1
    have hrel : (releaseMilestone true actorTg milestoneId s).1 =
        checkAndAwardReferral d.counterpartyId (checkAndAwardReferral d.creatorId s1) := by
      rw [hs1]
      simp [releaseMilestone, hm, hd, hdi, hc, hk, ha, hacct, eq_true hall']
    have hcnt : 1 ≤ countCompletedDeals s1.deals uid := by
      rw [hs1]
      apply countCompletedDeals_pos (d := { d with status := "completed" })
      · have hmem' := List.mem_map_of_mem
          (fun a => if (a.id == d.id : Bool) then { a with status := "completed" } else a)
          hmem
        rw [updateDealBy, updateBy]
        simpa using hmem'
      · rcases hroles with ⟨h1, _⟩ | ⟨h1, _⟩ <;> simp [dealInvolves, h1]
      · rfl
    have hu1 : (findUser s1.users uid).isSome = true := by
      rw [hs1]
      rcases hroles with ⟨h1, _⟩ | ⟨h1, _⟩
      · simp [h1, hc]
      · simp [h1, hk]
    have hr1 : findReferralFor s1.referrals uid = some r := by
      rw [hs1]
      exact hr
    have href1 : findUser s1.users r.referrerId = some refUser := by
      rw [hs1]
      exact href
    have hshare1 : ∀ r2, findReferralFor s1.referrals other = some r2 →
        r2.rewardClaimed = false → r2.referrerId ≠ r.referrerId := by
      rw [hs1]
      exact hshare
    have hboth := checkAndAwardReferral_both d.creatorId d.counterpartyId uid other s1
      refUser r hneq hroles hu1 hr1 hrc hcnt href1 hshare1
    rw [hrel]
    refine ⟨hboth.1, hboth.2, ?_⟩
    rw [checkAndAwardReferral_deals, checkAndAwardReferral_deals, hs1]
    show findDeal (updateDealBy s.deals d.id fun d' => { d' with status := "completed" })
      m.dealId = _
    rw [← hide, findDeal_updateDealBy]
    · rw [hd2]
      rfl
    · intro x
      rfl

/-- C7 amended witness: both paths at concrete inputs.  On the shipped trade
whose referred seller has no completed deal, the buyer's confirm_delivery
credits the referrer and claims the referral; on the one-milestone project
whose referred client has no completed deal, releasing the milestone does the
same and completes the deal. -/
theorem C7_amended_witness :
    (findUser (confirmDelivery true 200 1 stShippedCreatorReferred).1.users 3 =
        some { referrerU with freeTradesRemaining := 1 } ∧
      findReferralFor (confirmDelivery true 200 1 stShippedCreatorReferred).1.referrals 1 =
        some { id := 1, referrerId := 3, referredUserId := 1, rewardClaimed := true } ∧
      findDeal (confirmDelivery true 200 1 stShippedCreatorReferred).1.deals 1 =
        some (tradeDeal "completed" (some "completed") (some "pi_1")
          (some "auto_release_1"))) ∧
    (findUser (releaseMilestone true 100 7 stProjectReferred).1.users 3 =
        some { referrerU with freeTradesRemaining := 1 } ∧
      findReferralFor (releaseMilestone true 100 7 stProjectReferred).1.referrals 1 =
        some { id := 2, referrerId := 3, referredUserId := 1, rewardClaimed := true } ∧
      findDeal (releaseMilestone true 100 7 stProjectReferred).1.deals 5 =
        some (projectDeal2 "completed")) :=
  ⟨C7_amended.1 200 1 1 2 stShippedCreatorReferred _ _ _ _ _
      rfl rfl rfl rfl (by decide) (Or.inl ⟨rfl, rfl⟩) rfl rfl rfl rfl
      (fun r2 h _ => Option.noConfusion h),
   C7_amended.2 100 7 1 4 stProjectReferred _ _ _ _ _ "acct_contractor" _
      rfl rfl (by decide) rfl rfl rfl rfl (by decide) (by decide) (Or.inl ⟨rfl, rfl⟩)
      rfl rfl rfl rfl (fun r2 h _ => Option.noConfusion h)⟩

/-- C8: the fee/credit computation on trade funding: no fee for a buyer with
no prior completed deal; otherwise one free-trade credit is consumed when
available and the fee is zero; otherwise the fee is the configured
percentage of the gross amount in cents, rounded down. -/
theorem C8_fee_computation (cc ft : Nat) (p a : ℚ) (hp : 0 ≤ p) (ha : 0 ≤ a) :
    (cc = 0 → computeTradeFee cc ft p a = (0, ft)) ∧
    (cc ≠ 0 → 0 < ft → computeTradeFee cc ft p a = (0, ft - 1)) ∧
    (cc ≠ 0 → ft = 0 →
      (computeTradeFee cc ft p a).1 = Rat.floor (p / 100 * (a * 100)) ∧
      (computeTradeFee cc ft p a).2 = ft) := by
  refine ⟨?_, ?_, ?_⟩
  · intro h
    simp [computeTradeFee, h]
  · intro h hft
    simp [computeTradeFee, h, hft]
  · intro h hft
    by_cases hp0 : 0 < p
    · have hqe : a * (p / 100) * 100 = p / 100 * (a * 100) := by ring
      have hge : ¬ (a * (p / 100) * 100 < 0) :=
        not_lt.mpr (mul_nonneg (mul_nonneg ha (div_nonneg hp (by norm_num))) (by norm_num))
      simp [computeTradeFee, h, hft, hp0, pyInt, hge, hqe]
      intro hlt
      exact absurd hlt (hqe ▸ hge)
    · have hp0' : p = 0 := le_antisymm (not_lt.mp hp0) hp
      simp [computeTradeFee, h, hft, hp0, hp0']
      rfl

/-- C8 witness: a buyer with one completed deal and no credit, a 5 percent
fee and a 100 dollar trade pays a 500 cent fee. -/
theorem C8_witness :
    (computeTradeFee 1 0 5 100).1 = Rat.floor ((5:ℚ) / 100 * (100 * 100)) ∧
    (computeTradeFee 1 0 5 100).2 = 0 :=
  (C8_fee_computation 1 0 5 100 (by norm_num) (by norm_num)).2.2 (by decide) rfl

/-- C10 witness: the sample trade event and the same event with a different
paid amount and currency yield the same state. -/
theorem C10_witness :
    webhook evTrade stOffered =
      webhook { evTrade with amountTotal := 999, currency := "eur" } stOffered :=
  C10_webhook_amount_independent _ _ _ rfl rfl rfl rfl

end EscrowBot
